import Mathlib

/-!
Verification of the two command handlers in `cmd/src/repos_add_kvp.go`
(the `repos add-kvp` handler, "KeyValueMutator") and the
`snapshot databases` handler ("DumpCommandPlanner"), as a shallow
embedding in Lean 4.

Conventions of the embedding:
* Machine effects (network call, file open, directory creation, printed
  lines) are reified as explicit effect values collected in a trace list,
  in the order the Go code performs them.
* The results of external calls (the GraphQL round trip, reading a targets
  file, `os.MkdirAll`) are inputs of the embedded handlers, passed as
  function or value parameters.
* `flag.Parse` results for the add-kvp handler are modelled as the
  post-parse flag state: for each flag an `Option String` that is `some v`
  exactly when the flag was visited (explicitly passed) with value `v`;
  the effective value of a flag is `getD <default>`, matching Go's
  `flag.String` default plus `flag.Visit` semantics used by the source.
* For the snapshot handler the claims depend on the parsing algorithm of
  Go's `flag` package itself (it stops at the first non-flag argument), so
  that algorithm is embedded operationally for its single `-targets`
  string flag.
-/

/-! ## KeyValueMutator (`repos add-kvp` handler) -/

def exceptDecEq {ε α : Type} [DecidableEq ε] [DecidableEq α] :
    (a b : Except ε α) → Decidable (a = b)
  | Except.error a, Except.error b =>
    if h : a = b then Decidable.isTrue (by rw [h]) else Decidable.isFalse (by simp [h])
  | Except.error _, Except.ok _ => Decidable.isFalse (by simp)
  | Except.ok _, Except.error _ => Decidable.isFalse (by simp)
  | Except.ok a, Except.ok b =>
    if h : a = b then Decidable.isTrue (by rw [h]) else Decidable.isFalse (by simp [h])

instance {ε α : Type} [DecidableEq ε] [DecidableEq α] : DecidableEq (Except ε α) :=
  exceptDecEq

/-- Post-`flag.Parse` state of the three add-kvp flags. A field is `some v` iff
the flag was explicitly passed on the command line with value `v`
(`flag.Visit` visits exactly the flags that have been set); the declared
defaults are the empty string for all three flags. -/
structure KVPFlags where
  repo : Option String
  key : Option String
  value : Option String
deriving DecidableEq, Repr

/-- The variables of the `addKVP` GraphQL mutation request built by the
handler: `{"repo": *repoFlag, "key": *keyFlag, "value": valueFlag}`, where
`valueFlag` is a nullable pointer (`none` encodes Go `nil`, i.e. GraphQL
`null`). -/
structure KVPRequest where
  repo : String
  key : String
  value : Option String
deriving DecidableEq, Repr

/-- Observable effects of the add-kvp handler, in order. -/
inductive KVPEffect where
  | networkCall (req : KVPRequest)
  | print (line : String)
deriving DecidableEq, Repr

/-- Embedding of the add-kvp handler body (after `flagSet.Parse`).
`net` is the GraphQL client: `client.NewRequest(query, vars).Do(ctx, nil)`
returns `(ok, err)`, modelled as `Except String Bool`. The source:

* returns `error: repo is required` when `*repoFlag == ""`;
* resets `keyFlag`/`valueFlag` to nil and repopulates them from
  `flagSet.Visit`, so they are non-nil exactly when the flag was passed;
* returns `error: key is required` when `keyFlag == nil`;
* performs the mutation; on `err != nil || !ok` it returns `err`
  (so `ok == false` with nil error returns success without printing);
* on success prints the confirmation line, with `<nil>` rendered by
  `%v` for a nil `valueFlag` pointer. -/
def addKVPHandler (f : KVPFlags) (net : KVPRequest → Except String Bool) :
    List KVPEffect × Except String Unit :=
  if f.repo.getD "" = "" then
    ([], Except.error "error: repo is required")
  else
    match f.key with
    | none => ([], Except.error "error: key is required")
    | some key =>
      let req : KVPRequest := { repo := f.repo.getD "", key := key, value := f.value }
      match net req with
      | Except.error e => ([KVPEffect.networkCall req], Except.error e)
      | Except.ok false => ([KVPEffect.networkCall req], Except.ok ())
      | Except.ok true =>
        let line :=
          match f.value with
          | some v => "Key-value pair '" ++ key ++ ":" ++ v ++ "' created."
          | none => "Key-value pair '" ++ key ++ ":<nil>' created."
        ([KVPEffect.networkCall req, KVPEffect.print line], Except.ok ())

/-! ## DumpCommandPlanner (`snapshot databases` handler) -/

/-- One database endpoint (`pgdump.Target`). -/
structure Target where
  target : String := ""
  dbName : String := ""
  username : String := ""
  password : String := ""
deriving DecidableEq, Repr

/-- The three well-known database roles (`pgdump.Targets`). -/
structure Targets where
  primary : Target
  codeIntel : Target
  codeInsights : Target
deriving DecidableEq, Repr

/-- Go `%q` formatting of a string, as used in the handler's error and
info messages (quotes plus escaping; modelled for backslash and quote,
which covers all strings appearing in the program and the claims). -/
def goQuote (s : String) : String :=
  "\"" ++ String.join (s.toList.map (fun c =>
    if c = '"' then "\\\"" else if c = '\\' then "\\\\" else String.mk [c])) ++ "\""

/-- Modelled from the spec: `pgdump.Command` is defined outside the
provided sources (package `internal/pgdump`). Per the spec, each template
"must embed the database name, username, and password as connection
parameters" of a `pg_dump` invocation; the modelled invocation embeds the
three fields literally. -/
def pgdumpCommand (t : Target) : String :=
  "pg_dump --dbname=" ++ t.dbName ++ " --username=" ++ t.username ++
    " --password=" ++ t.password

/-- The three builder styles of the `switch builder` dispatch. -/
inductive DumpStyle where
  | direct
  | dockerStyle
  | kubectlStyle
deriving DecidableEq, Repr

/-- The per-style `pgdump.CommandBuilder` closures from the source:

* `pg_dump`/empty: `pgdump.Command(t)`, plus ` --host=<target>` when
  `t.Target != ""`;
* `docker`: `docker exec -it <target> sh -c '<command>'`;
* `kubectl`: `kubectl exec -it <target> -- bash -c '<command>'`. -/
def buildCommand : DumpStyle → Target → String
  | DumpStyle.direct, t =>
    if t.target ≠ "" then pgdumpCommand t ++ " --host=" ++ t.target
    else pgdumpCommand t
  | DumpStyle.dockerStyle, t =>
    "docker exec -it " ++ t.target ++ " sh -c '" ++ pgdumpCommand t ++ "'"
  | DumpStyle.kubectlStyle, t =>
    "kubectl exec -it " ++ t.target ++ " -- bash -c '" ++ pgdumpCommand t ++ "'"

/-- Modelled from the spec: `pgdump.BuildCommands` is defined outside the
provided sources. Per the spec, it renders one command per logical
database using the selected template, in the fixed order primary,
code-intelligence, code-insights; the builders in this file never fail,
so the error return is omitted. -/
def buildCommands (style : DumpStyle) (ts : Targets) : List String :=
  [buildCommand style ts.primary,
   buildCommand style ts.codeIntel,
   buildCommand style ts.codeInsights]

/-- The `switch builder` dispatch: resolves the builder style token to the
auto-derived target key and the command builder, or fails with the
unknown-template-type error. The source initialises `targetKey` to
`"docker"`, overwrites it with `"local"` in the `pg_dump`/empty case and
`"k8s"` in the `kubectl` case, and leaves it in the `docker` case. -/
def resolveBuilder (builder : String) : Except String (String × DumpStyle) :=
  if builder = "pg_dump" ∨ builder = "" then
    Except.ok ("local", DumpStyle.direct)
  else if builder = "docker" then
    Except.ok ("docker", DumpStyle.dockerStyle)
  else if builder = "kubectl" then
    Except.ok ("k8s", DumpStyle.kubectlStyle)
  else
    Except.error ("unknown or invalid template type " ++ goQuote builder)

/-- The `-targets` override: `if *targetsKeyFlag != "auto" { targetKey = *targetsKeyFlag }`. -/
def resolveTargetKey (targetsFlag derivedKey : String) : String :=
  if targetsFlag ≠ "auto" then targetsFlag else derivedKey

/-- The `predefinedDatabaseDumpTargets` map from the source, as a lookup
function over its three keys. -/
def predefinedDatabaseDumpTargets (k : String) : Option Targets :=
  if k = "local" then
    some { primary := { dbName := "sg", username := "sg", password := "sg" },
           codeIntel := { dbName := "sg", username := "sg", password := "sg" },
           codeInsights := { dbName := "postgres", username := "postgres", password := "password" } }
  else if k = "docker" then
    some { primary := { target := "pgsql", dbName := "sg", username := "sg", password := "sg" },
           codeIntel := { target := "codeintel-db", dbName := "sg", username := "sg", password := "sg" },
           codeInsights := { target := "codeinsights-db", dbName := "postgres", username := "postgres", password := "password" } }
  else if k = "k8s" then
    some { primary := { target := "statefulset/pgsql", dbName := "sg", username := "sg", password := "sg" },
           codeIntel := { target := "statefulset/codeintel-db", dbName := "sg", username := "sg", password := "sg" },
           codeInsights := { target := "statefulset/codeinsights-db", dbName := "postgres", username := "postgres", password := "password" } }
  else
    none

/-- Splits a flag token at its first `=`, as Go's `flag` package does when
scanning `name=value` (the scan starts behind the first character, but the
callers below only reach this after ruling out a leading `=`). -/
def splitEq : List Char → List Char × Option (List Char)
  | [] => ([], none)
  | c :: rest =>
    if c = '=' then ([], some rest)
    else
      let p := splitEq rest
      (c :: p.1, p.2)

/-- Result of processing one token in Go's `flag.parseOne` for the
snapshot handler's flag set (single string flag `targets`):
either stop parsing (first positional argument or bare `--`), fail, or
set the flag and continue with the remaining tokens. -/
inductive TokStep where
  | stop
  | err (msg : String)
  | cont (newTargets : String) (next : List String)
deriving DecidableEq, Repr

/-- One step of Go `flag.parseOne` for the single string flag `targets`:

* stop (leaving the rest as positional arguments) at the first token that
  is shorter than two characters or does not start with `-`;
* a bare `--` terminates parsing;
* a token whose name part starts with `-` or `=` is a syntax error;
* `-targets=v` sets the flag and continues; `-targets v` consumes the
  next token as the value (an error if there is none);
* any other flag name is an error (`-h`/`-help` request usage). -/
def parseTok (s : String) (rest : List String) : TokStep :=
  match s.toList with
  | [] => TokStep.stop
  | [_] => TokStep.stop
  | c0 :: c1 :: cs =>
    if c0 ≠ '-' then TokStep.stop
    else if c1 = '-' ∧ cs = [] then TokStep.stop
    else
      let name := if c1 = '-' then cs else c1 :: cs
      match name with
      | [] => TokStep.err ("bad flag syntax: " ++ s)
      | n0 :: _ =>
        if n0 = '-' ∨ n0 = '=' then TokStep.err ("bad flag syntax: " ++ s)
        else
          let p := splitEq name
          if String.mk p.1 = "targets" then
            match p.2 with
            | some v => TokStep.cont (String.mk v) rest
            | none =>
              match rest with
              | v :: rest2 => TokStep.cont v rest2
              | [] => TokStep.err "flag needs an argument: -targets"
          else if String.mk p.1 = "help" ∨ String.mk p.1 = "h" then
            TokStep.err "flag: help requested"
          else
            TokStep.err ("flag provided but not defined: -" ++ String.mk p.1)

/-- The `flag.Parse` loop, iterating `parseTok` over the argument list.
Each step consumes at least the current token, so a fuel of the list
length suffices; the fuel-exhaustion branch is unreachable for the fuel
used by `parseTargetsArgs` (see `parseTargetsLoop_fuel_adequate`). -/
def parseTargetsLoop : Nat → String → List String → Except String String
  | _, targets, [] => Except.ok targets
  | 0, _, _ :: _ => Except.error "unreachable: parser fuel exhausted"
  | fuel + 1, targets, s :: rest =>
    match parseTok s rest with
    | TokStep.stop => Except.ok targets
    | TokStep.err m => Except.error m
    | TokStep.cont nt next => parseTargetsLoop fuel nt next

/-- Go `flag.Parse` for the snapshot handler's flag set, which declares
the single string flag `targets` (default `"auto"`). The flag set is
created with `flag.ExitOnError`, so every error case is terminal for the
invocation, matching the `Except.error` results. Returns the final value
of the `targets` flag. -/
def parseTargetsArgs (targets : String) (args : List String) : Except String String :=
  parseTargetsLoop args.length targets args

/-- Modelled from the spec: the designated snapshot output directory
(`srcSnapshotDir`, a constant defined outside the provided sources). Its
concrete value is irrelevant to the claims. -/
def srcSnapshotDir : String := ".sourcegraph-snapshot"

/-- Observable effects of the snapshot databases handler, in order. -/
inductive SnapEffect where
  | writeLine (line : String)
  | fileOpen (path : String)
  | mkdirAll (dir : String)
  | blockWrite (text : String)
deriving DecidableEq, Repr

/-- The tail of the handler once a `Targets` value is resolved: builds the
three commands, attempts `os.MkdirAll(srcSnapshotDir, os.ModePerm)` while
discarding its result (the source reads `_ = os.MkdirAll(...)`, so
`mkdirResult` is an input the program ignores), and writes the output
block and the advisory note. -/
def renderOutcome (eff : List SnapEffect) (style : DumpStyle) (targets : Targets)
    (mkdirResult : Except String Unit) : List SnapEffect × Except String (List String) :=
  let commands := buildCommands style targets
  let _ := mkdirResult
  (eff ++ [SnapEffect.mkdirAll srcSnapshotDir,
           SnapEffect.writeLine "Run these commands to generate the required database dumps:",
           SnapEffect.blockWrite ("\n" ++ String.intercalate "\n" commands),
           SnapEffect.writeLine "Note that you may need to do some additional setup, such as authentication, beforehand."],
   Except.ok commands)

/-- Embedding of the snapshot databases handler. `fs path` models opening
and YAML-decoding the targets file at `path`; `mkdirResult` models the
outcome of `os.MkdirAll(srcSnapshotDir, os.ModePerm)`. The source:

* parses flags (`flag.ExitOnError`, so a parse failure is terminal);
* reads the builder style from the raw `args[0]` (empty when no args);
* dispatches on the style, failing with the unknown-template-type error
  for any other token;
* overrides the derived target key with `-targets` unless it is `auto`;
* uses the predefined targets when the key matches, otherwise announces
  and opens the key as a targets file (open/decode failures are wrapped
  with `invalid targets file %q`);
* builds the three commands, makes the output directory (result
  discarded), and prints the block plus the advisory note.
Emoji/style prefixes of the output library are not modelled. -/
def snapshotDatabasesHandler (fs : String → Except String Targets)
    (mkdirResult : Except String Unit) (args : List String) :
    List SnapEffect × Except String (List String) :=
  match parseTargetsArgs "auto" args with
  | Except.error e => ([], Except.error e)
  | Except.ok targetsFlag =>
    let builder := args.headD ""
    match resolveBuilder builder with
    | Except.error e => ([], Except.error e)
    | Except.ok (derivedKey, style) =>
      let targetKey := resolveTargetKey targetsFlag derivedKey
      match predefinedDatabaseDumpTargets targetKey with
      | some targets =>
        renderOutcome
          [SnapEffect.writeLine ("Using predefined targets for " ++ targetKey ++ " environments")]
          style targets mkdirResult
      | none =>
        let eff := [SnapEffect.writeLine ("Using targets defined in targets file " ++ goQuote targetKey),
                    SnapEffect.fileOpen targetKey]
        match fs targetKey with
        | Except.error e =>
          (eff, Except.error ("invalid targets file " ++ goQuote targetKey ++ ": " ++ e))
        | Except.ok targets => renderOutcome eff style targets mkdirResult

/-! ## Theorems: KeyValueMutator claims -/

/-- C1: for every valid add-kvp invocation (effective repo value
non-empty, key explicitly set), the mutation request is issued and its
`value` variable preserves the tri-state distinction: it equals the value
flag's visitation state, so it is `null` (`none`) when `-value` was never
passed and the empty string when `-value=""` was explicitly passed. -/
theorem c1_value_tristate_preserved (f : KVPFlags) (net : KVPRequest → Except String Bool)
    (hr : f.repo.getD "" ≠ "") (k : String) (hk : f.key = some k) :
    ∃ req : KVPRequest,
      (addKVPHandler f net).1.head? = some (KVPEffect.networkCall req) ∧
      req.value = f.value ∧
      (f.value = none → req.value = none) ∧
      (f.value = some "" → req.value = some "") := by
  refine ⟨{ repo := f.repo.getD "", key := k, value := f.value }, ?_, rfl,
    fun h => h, fun h => h⟩
  simp only [addKVPHandler, if_neg hr, hk]
  rcases net { repo := f.repo.getD "", key := k, value := f.value } with e | b
  · rfl
  · cases b
    · rfl
    · rfl

/-- Witness for C1 at a concrete valid invocation with `-value` unset. -/
theorem c1_value_tristate_preserved_witness :
    ((KVPFlags.mk (some "r1") (some "k1") none).repo.getD "" ≠ "") ∧
    ((KVPFlags.mk (some "r1") (some "k1") none).key = some "k1") ∧
    ∃ req : KVPRequest,
      (addKVPHandler (KVPFlags.mk (some "r1") (some "k1") none)
          (fun _ => Except.ok true)).1.head? = some (KVPEffect.networkCall req) ∧
      req.value = (KVPFlags.mk (some "r1") (some "k1") none).value ∧
      ((KVPFlags.mk (some "r1") (some "k1") none).value = none → req.value = none) ∧
      ((KVPFlags.mk (some "r1") (some "k1") none).value = some "" → req.value = some "") :=
  ⟨by decide, rfl,
    c1_value_tristate_preserved (KVPFlags.mk (some "r1") (some "k1") none)
      (fun _ => Except.ok true) (by decide) "k1" rfl⟩

/-- C5 counterexample: an invocation with `-key` explicitly passed as the
empty string (and a valid repo) is NOT rejected by validation; the
handler sends the mutation with the empty key and reports success, so the
claim that validation rejects an explicitly-empty key is false. -/
theorem c5_empty_key_not_rejected_counterexample :
    (addKVPHandler (KVPFlags.mk (some "r1") (some "") none)
        (fun _ => Except.ok true)).1 =
      [KVPEffect.networkCall (KVPRequest.mk "r1" "" none),
       KVPEffect.print "Key-value pair ':<nil>' created."] ∧
    (addKVPHandler (KVPFlags.mk (some "r1") (some "") none)
        (fun _ => Except.ok true)).2 = Except.ok () := by
  constructor
  · rfl
  · rfl

/-- Helper: an explicitly-passed empty key together with a valid repo
passes validation, and the first effect is the network call carrying the
empty key. -/
theorem emptyKeyReachesNetwork (f : KVPFlags)
    (net : KVPRequest → Except String Bool)
    (hr : f.repo.getD "" ≠ "") (hk : f.key = some "") :
    (addKVPHandler f net).1.head? =
      some (KVPEffect.networkCall (KVPRequest.mk (f.repo.getD "") "" f.value)) := by
  simp only [addKVPHandler, if_neg hr, hk]
  rcases net { repo := f.repo.getD "", key := "", value := f.value } with e | b
  · rfl
  · cases b
    · rfl
    · rfl

/-- C5 amended: the key is required only in the presence sense. For every
invocation with a valid repo where `-key` is explicitly passed with the
empty string, validation passes and the mutation is sent with the empty
string as key. -/
theorem c5_amended_empty_key_accepted (f : KVPFlags)
    (net : KVPRequest → Except String Bool)
    (hr : f.repo.getD "" ≠ "") (hk : f.key = some "") :
    (addKVPHandler f net).1.head? =
      some (KVPEffect.networkCall (KVPRequest.mk (f.repo.getD "") "" f.value)) :=
  emptyKeyReachesNetwork f net hr hk

/-- Witness for the amended C5 at a concrete invocation. -/
theorem c5_amended_empty_key_accepted_witness :
    ((KVPFlags.mk (some "r1") (some "") none).repo.getD "" ≠ "") ∧
    ((KVPFlags.mk (some "r1") (some "") none).key = some "") ∧
    (addKVPHandler (KVPFlags.mk (some "r1") (some "") none)
        (fun _ => Except.error "transport down")).1.head? =
      some (KVPEffect.networkCall (KVPRequest.mk "r1" "" none)) :=
  ⟨by decide, rfl,
    c5_amended_empty_key_accepted (KVPFlags.mk (some "r1") (some "") none)
      (fun _ => Except.error "transport down") (by decide) rfl⟩

/-- C6: when the `-repo` flag was never passed (so its effective value is
the empty default), the handler fails with the validation error and its
effect trace is empty: in particular no network call is attempted. -/
theorem c6_missing_repo_fails_before_network (f : KVPFlags)
    (net : KVPRequest → Except String Bool) (hr : f.repo = none) :
    addKVPHandler f net = ([], Except.error "error: repo is required") := by
  simp [addKVPHandler, hr]

/-- Witness for C6 at a concrete invocation with `-repo` unset. -/
theorem c6_missing_repo_fails_before_network_witness :
    ((KVPFlags.mk none (some "k1") (some "v")).repo = none) ∧
    addKVPHandler (KVPFlags.mk none (some "k1") (some "v"))
        (fun _ => Except.ok true) =
      ([], Except.error "error: repo is required") :=
  ⟨rfl, c6_missing_repo_fails_before_network _ (fun _ => Except.ok true) rfl⟩

/-- C7: when the `-key` flag was never passed, the handler fails with the
key validation error (and performs no effect), even though the flag's
declared default is the empty string; and presence is decided by
flag visitation rather than an empty-string check: an explicitly-empty
key does reach the network call. -/
theorem c7_unset_key_fails_by_visitation (f : KVPFlags)
    (net : KVPRequest → Except String Bool) (hr : f.repo.getD "" ≠ "") :
    (f.key = none →
      addKVPHandler f net = ([], Except.error "error: key is required")) ∧
    (f.key = some "" →
      ∃ req : KVPRequest,
        (addKVPHandler f net).1.head? = some (KVPEffect.networkCall req)) := by
  constructor
  · intro hk
    simp [addKVPHandler, if_neg hr, hk]
  · intro hk
    exact ⟨KVPRequest.mk (f.repo.getD "") "" f.value,
      emptyKeyReachesNetwork f net hr hk⟩

/-- Witness for C7 at a concrete invocation with `-key` unset. -/
theorem c7_unset_key_fails_by_visitation_witness :
    ((KVPFlags.mk (some "r1") none none).repo.getD "" ≠ "") ∧
    ((KVPFlags.mk (some "r1") none none).key = none) ∧
    addKVPHandler (KVPFlags.mk (some "r1") none none)
        (fun _ => Except.ok true) =
      ([], Except.error "error: key is required") :=
  ⟨by decide, rfl,
    (c7_unset_key_fails_by_visitation (KVPFlags.mk (some "r1") none none)
      (fun _ => Except.ok true) (by decide)).1 rfl⟩

/-- C9: for every valid invocation whose mutation round trip succeeds,
the handler prints exactly one confirmation line after the network call;
the line is `Key-value pair '<key>:<nil>' created.` when `-value` was
never passed (never an empty-string placeholder) and
`Key-value pair '<key>:<value>' created.` when a value is present. -/
theorem c9_confirmation_line (f : KVPFlags) (net : KVPRequest → Except String Bool)
    (k : String) (hr : f.repo.getD "" ≠ "") (hk : f.key = some k)
    (hnet : net (KVPRequest.mk (f.repo.getD "") k f.value) = Except.ok true) :
    ∃ line : String,
      (addKVPHandler f net).1 =
        [KVPEffect.networkCall (KVPRequest.mk (f.repo.getD "") k f.value),
         KVPEffect.print line] ∧
      (f.value = none → line = "Key-value pair '" ++ k ++ ":<nil>' created.") ∧
      (∀ v, f.value = some v →
        line = "Key-value pair '" ++ k ++ ":" ++ v ++ "' created.") ∧
      (addKVPHandler f net).2 = Except.ok () := by
  rcases hv : f.value with _ | v
  · refine ⟨"Key-value pair '" ++ k ++ ":<nil>' created.", ?_, ?_, ?_, ?_⟩
    · rw [hv] at hnet
      simp only [addKVPHandler, if_neg hr, hk, hv]
      rw [hnet]
    · intro _
      rfl
    · intro w hw
      cases hw
    · rw [hv] at hnet
      simp only [addKVPHandler, if_neg hr, hk, hv]
      rw [hnet]
  · refine ⟨"Key-value pair '" ++ k ++ ":" ++ v ++ "' created.", ?_, ?_, ?_, ?_⟩
    · rw [hv] at hnet
      simp only [addKVPHandler, if_neg hr, hk, hv]
      rw [hnet]
    · intro h
      cases h
    · intro w hw
      cases hw
      rfl
    · rw [hv] at hnet
      simp only [addKVPHandler, if_neg hr, hk, hv]
      rw [hnet]

/-- Witness for C9 at concrete invocations, one with `-value` unset and
one with `-value=v1`. -/
theorem c9_confirmation_line_witness :
    ((KVPFlags.mk (some "r1") (some "k1") none).repo.getD "" ≠ "") ∧
    (∃ line : String,
      (addKVPHandler (KVPFlags.mk (some "r1") (some "k1") none)
          (fun _ => Except.ok true)).1 =
        [KVPEffect.networkCall (KVPRequest.mk "r1" "k1" none),
         KVPEffect.print line] ∧
      ((KVPFlags.mk (some "r1") (some "k1") none).value = none →
        line = "Key-value pair '" ++ "k1" ++ ":<nil>' created.") ∧
      (∀ v, (KVPFlags.mk (some "r1") (some "k1") none).value = some v →
        line = "Key-value pair '" ++ "k1" ++ ":" ++ v ++ "' created.") ∧
      (addKVPHandler (KVPFlags.mk (some "r1") (some "k1") none)
          (fun _ => Except.ok true)).2 = Except.ok ()) :=
  ⟨by decide,
    c9_confirmation_line (KVPFlags.mk (some "r1") (some "k1") none)
      (fun _ => Except.ok true) "k1" (by decide) rfl rfl⟩

/-! ## Theorems: DumpCommandPlanner claims -/

/-- Helper: a token starting with `-` is none of the four recognised
builder style tokens. -/
theorem builderNeOfDash (s : String) (hdash : s.data.head? = some '-') :
    s ≠ "pg_dump" ∧ s ≠ "" ∧ s ≠ "docker" ∧ s ≠ "kubectl" := by
  refine ⟨?_, ?_, ?_, ?_⟩ <;> rintro rfl <;> revert hdash <;> decide

/-- Helper: when flag parsing succeeds and the first raw argument is not
one of the four recognised style tokens, the handler fails with the
unknown-template-type error and an empty effect trace. -/
theorem handlerUnknownBuilder (fs : String → Except String Targets)
    (mkres : Except String Unit) (args : List String) (tv : String)
    (hp : parseTargetsArgs "auto" args = Except.ok tv)
    (h1 : args.headD "" ≠ "pg_dump") (h2 : args.headD "" ≠ "")
    (h3 : args.headD "" ≠ "docker") (h4 : args.headD "" ≠ "kubectl") :
    snapshotDatabasesHandler fs mkres args =
      ([], Except.error ("unknown or invalid template type " ++ goQuote (args.headD ""))) := by
  have hfirst : ¬(args.headD "" = "pg_dump" ∨ args.headD "" = "") := by
    rintro (hc | hc)
    · exact h1 hc
    · exact h2 hc
  have hrb : resolveBuilder (args.headD "") =
      Except.error ("unknown or invalid template type " ++ goQuote (args.headD "")) := by
    simp only [resolveBuilder, if_neg hfirst, if_neg h3, if_neg h4]
  simp only [snapshotDatabasesHandler, hp, hrb]

/-- Helper: flag parsing never proceeds past a first token that is empty,
a single character, or does not begin with `-`: the `targets` flag keeps
its current value. -/
theorem parseStopsAtPositional (targets s : String) (rest : List String)
    (h : s.data.head? ≠ some '-') :
    parseTargetsArgs targets (s :: rest) = Except.ok targets := by
  have hTok : parseTok s rest = TokStep.stop := by
    rcases hd : s.data with _ | ⟨c0, tl⟩
    · simp [parseTok, hd]
    · rcases tl with _ | ⟨c1, cs⟩
      · simp [parseTok, hd]
      · have hc0 : ¬(c0 = '-') := by
          intro hc
          apply h
          rw [hd, hc]
          rfl
        simp [parseTok, hd, hc0]
  simp [parseTargetsArgs, parseTargetsLoop, hTok]

/-- C3: for every invocation whose flags parse and whose first raw
argument (the builder style token) is not one of `pg_dump`, the empty
string, `docker` or `kubectl`, the handler fails with the
unknown-template-type error, its effect trace is empty (no file open, no
directory creation, no output), and no commands are rendered — there is
no fallback style. -/
theorem c3_unknown_style_fails_without_io (fs : String → Except String Targets)
    (mkres : Except String Unit) (args : List String) (tv : String)
    (hp : parseTargetsArgs "auto" args = Except.ok tv)
    (h1 : args.headD "" ≠ "pg_dump") (h2 : args.headD "" ≠ "")
    (h3 : args.headD "" ≠ "docker") (h4 : args.headD "" ≠ "kubectl") :
    snapshotDatabasesHandler fs mkres args =
      ([], Except.error ("unknown or invalid template type " ++ goQuote (args.headD ""))) :=
  handlerUnknownBuilder fs mkres args tv hp h1 h2 h3 h4

/-- Witness for C3 at the spec's example token `frobnicate`. -/
theorem c3_unknown_style_fails_without_io_witness :
    (parseTargetsArgs "auto" ["frobnicate"] = Except.ok "auto") ∧
    (["frobnicate"].headD "" ≠ "pg_dump") ∧ (["frobnicate"].headD "" ≠ "") ∧
    (["frobnicate"].headD "" ≠ "docker") ∧ (["frobnicate"].headD "" ≠ "kubectl") ∧
    snapshotDatabasesHandler (fun _ => Except.error "unused") (Except.ok ()) ["frobnicate"] =
      ([], Except.error ("unknown or invalid template type " ++ goQuote (["frobnicate"].headD ""))) :=
  ⟨by decide, by decide, by decide, by decide, by decide,
    c3_unknown_style_fails_without_io (fun _ => Except.error "unused") (Except.ok ())
      ["frobnicate"] "auto" (by decide) (by decide) (by decide) (by decide) (by decide)⟩

/-- C2: with the targets selector at its default `auto`, the preset name
is derived from the style: `pg_dump`/empty derive `local`, `docker`
derives `docker`, `kubectl` derives `k8s`, and the `auto` selector never
overrides the derivation; in particular a `docker`-style invocation whose
parsed selector is `auto` announces and uses the `docker` predefined
targets. -/
theorem c2_auto_preset_derivation :
    resolveBuilder "pg_dump" = Except.ok ("local", DumpStyle.direct) ∧
    resolveBuilder "" = Except.ok ("local", DumpStyle.direct) ∧
    resolveBuilder "docker" = Except.ok ("docker", DumpStyle.dockerStyle) ∧
    resolveBuilder "kubectl" = Except.ok ("k8s", DumpStyle.kubectlStyle) ∧
    (∀ derivedKey, resolveTargetKey "auto" derivedKey = derivedKey) ∧
    (∀ (fs : String → Except String Targets) (mkres : Except String Unit)
        (args : List String),
      args.headD "" = "docker" →
      parseTargetsArgs "auto" args = Except.ok "auto" →
      (snapshotDatabasesHandler fs mkres args).1.head? =
        some (SnapEffect.writeLine "Using predefined targets for docker environments")) := by
  refine ⟨rfl, rfl, rfl, rfl, fun _ => rfl, ?_⟩
  intro fs mkres args hb hp
  simp only [snapshotDatabasesHandler, hp, hb]
  rfl

/-- Witness for C2's quantified part at the invocation `["docker"]`. -/
theorem c2_auto_preset_derivation_witness :
    (["docker"].headD "" = "docker") ∧
    (parseTargetsArgs "auto" ["docker"] = Except.ok "auto") ∧
    (snapshotDatabasesHandler (fun _ => Except.error "unused") (Except.ok ())
        ["docker"]).1.head? =
      some (SnapEffect.writeLine "Using predefined targets for docker environments") :=
  ⟨rfl, by decide,
    c2_auto_preset_derivation.2.2.2.2.2 (fun _ => Except.error "unused") (Except.ok ())
      ["docker"] rfl (by decide)⟩

/-- Helper: one parse step never lengthens the remaining argument list,
so a fuel equal to the list length is enough for the parse loop. -/
theorem parseTok_next_le (s : String) (rest : List String) (nt : String)
    (next : List String) (h : parseTok s rest = TokStep.cont nt next) :
    next.length ≤ rest.length := by
  simp only [parseTok] at h
  repeat' split at h
  all_goals try cases h
  all_goals simp

/-- The parse loop is insensitive to the fuel as long as the fuel covers
the argument list length: the fuel-exhaustion branch of
`parseTargetsLoop` is unreachable for the fuel `parseTargetsArgs` uses. -/
theorem parseTargetsLoop_fuel_adequate :
    ∀ (fuel fuel' : Nat) (targets : String) (args : List String),
      args.length ≤ fuel → args.length ≤ fuel' →
      parseTargetsLoop fuel targets args = parseTargetsLoop fuel' targets args := by
  intro fuel
  induction fuel with
  | zero =>
    intro fuel' targets args h h'
    have hnil : args = [] := List.eq_nil_of_length_eq_zero (Nat.le_zero.mp h)
    subst hnil
    cases fuel' <;> rfl
  | succ f ih =>
    intro fuel' targets args h h'
    cases args with
    | nil => cases fuel' <;> rfl
    | cons s rest =>
      cases fuel' with
      | zero => simp at h'
      | succ f' =>
        simp only [parseTargetsLoop]
        rcases htok : parseTok s rest with _ | m | ⟨nt, next⟩
        · rfl
        · rfl
        · have hle : next.length ≤ rest.length := parseTok_next_le s rest nt next htok
          have hf : next.length ≤ f := Nat.le_trans hle (Nat.le_of_succ_le_succ (by simpa using h))
          have hf' : next.length ≤ f' := Nat.le_trans hle (Nat.le_of_succ_le_succ (by simpa using h'))
          exact ih f' nt next hf hf'

/-- C10 (implicit behaviour): the handler reads the builder style from
the raw, unparsed `args[0]`. Consequently (a) whenever the first argument
is a flag token (starts with `-`) the handler never succeeds, and when
flag parsing itself succeeds it fails with the unknown-template-type
error naming that flag token verbatim; and (b) whenever the first
argument is a non-flag token (the style positional), flag parsing stops
there, so flags placed after it are never parsed and the targets
selector keeps its default `auto`. -/
theorem c10_style_from_raw_args0 (fs : String → Except String Targets)
    (mkres : Except String Unit) (s : String) (rest : List String) :
    (s.data.head? = some '-' →
      ∀ cmds : List String,
        (snapshotDatabasesHandler fs mkres (s :: rest)).2 ≠ Except.ok cmds) ∧
    (s.data.head? = some '-' → ∀ tv : String,
      parseTargetsArgs "auto" (s :: rest) = Except.ok tv →
      snapshotDatabasesHandler fs mkres (s :: rest) =
        ([], Except.error ("unknown or invalid template type " ++ goQuote s))) ∧
    (s.data.head? ≠ some '-' →
      parseTargetsArgs "auto" (s :: rest) = Except.ok "auto") := by
  refine ⟨?_, ?_, ?_⟩
  · intro hdash cmds hok
    obtain ⟨h1, h2, h3, h4⟩ := builderNeOfDash s hdash
    rcases hp : parseTargetsArgs "auto" (s :: rest) with e | tv
    · have hh : snapshotDatabasesHandler fs mkres (s :: rest) = ([], Except.error e) := by
        simp only [snapshotDatabasesHandler, hp]
      rw [hh] at hok
      exact Except.noConfusion hok
    · have hh := handlerUnknownBuilder fs mkres (s :: rest) tv hp h1 h2 h3 h4
      rw [hh] at hok
      exact Except.noConfusion hok
  · intro hdash tv hp
    obtain ⟨h1, h2, h3, h4⟩ := builderNeOfDash s hdash
    exact handlerUnknownBuilder fs mkres (s :: rest) tv hp h1 h2 h3 h4
  · intro h
    exact parseStopsAtPositional "auto" s rest h

/-- Witness for C10: `["-targets=k8s"]` parses the flag yet fails with
the unknown-template-type error naming `-targets=k8s`, and
`["kubectl", "-targets=docker"]` leaves the targets selector at `auto`. -/
theorem c10_style_from_raw_args0_witness :
    ("-targets=k8s".data.head? = some '-') ∧
    (parseTargetsArgs "auto" ["-targets=k8s"] = Except.ok "k8s") ∧
    snapshotDatabasesHandler (fun _ => Except.error "unused") (Except.ok ())
        ["-targets=k8s"] =
      ([], Except.error ("unknown or invalid template type " ++ goQuote "-targets=k8s")) ∧
    ("kubectl".data.head? ≠ some '-') ∧
    parseTargetsArgs "auto" ["kubectl", "-targets=docker"] = Except.ok "auto" :=
  ⟨by decide, by decide,
    (c10_style_from_raw_args0 (fun _ => Except.error "unused") (Except.ok ())
      "-targets=k8s" []).2.1 (by decide) "k8s" (by decide),
    by decide,
    (c10_style_from_raw_args0 (fun _ => Except.error "unused") (Except.ok ())
      "kubectl" ["-targets=docker"]).2.2 (by decide)⟩

/-- Helper: the handler's outcome does not depend on the result of
`os.MkdirAll` — the source discards it (`_ = os.MkdirAll(...)`). -/
theorem handlerMkdirIrrelevant (fs : String → Except String Targets)
    (mk mk' : Except String Unit) (args : List String) :
    snapshotDatabasesHandler fs mk args = snapshotDatabasesHandler fs mk' args := by
  unfold snapshotDatabasesHandler renderOutcome
  rfl

/-- C4 counterexample: a run in which `os.MkdirAll` fails is observably
identical — same effect trace, same printed lines, same successful
result — to a run in which it succeeds, because the source discards the
error (`_ = os.MkdirAll(srcSnapshotDir, os.ModePerm)`). The creation
failure is therefore NOT surfaced to the user, refuting the claim's
surfacing requirement (the non-fatality half does hold). -/
theorem c4_mkdir_failure_not_surfaced_counterexample :
    snapshotDatabasesHandler (fun _ => Except.error "unused")
        (Except.error "mkdir .sourcegraph-snapshot: permission denied") ["docker"] =
      snapshotDatabasesHandler (fun _ => Except.error "unused") (Except.ok ()) ["docker"] ∧
    ∃ cmds : List String,
      (snapshotDatabasesHandler (fun _ => Except.error "unused")
          (Except.error "mkdir .sourcegraph-snapshot: permission denied") ["docker"]).2 =
        Except.ok cmds :=
  ⟨rfl, ⟨buildCommands DumpStyle.dockerStyle
    { primary := { target := "pgsql", dbName := "sg", username := "sg", password := "sg" },
      codeIntel := { target := "codeintel-db", dbName := "sg", username := "sg", password := "sg" },
      codeInsights := { target := "codeinsights-db", dbName := "postgres",
                        username := "postgres", password := "password" } }, rfl⟩⟩

/-- C4 amended: on every invocation that renders commands, the handler
attempts to create the designated output directory (with parents, via
`os.MkdirAll`), but the attempt's failure is both non-fatal AND silently
ignored — the outcome is identical for every `MkdirAll` result, so a
failure is never surfaced to the user. -/
theorem c4_amended_mkdir_attempted_failure_ignored
    (fs : String → Except String Targets) (mkres mkres' : Except String Unit)
    (args : List String) (cmds : List String)
    (hok : (snapshotDatabasesHandler fs mkres args).2 = Except.ok cmds) :
    SnapEffect.mkdirAll srcSnapshotDir ∈ (snapshotDatabasesHandler fs mkres args).1 ∧
    snapshotDatabasesHandler fs mkres' args = snapshotDatabasesHandler fs mkres args := by
  refine ⟨?_, handlerMkdirIrrelevant fs mkres' mkres args⟩
  rcases hp : parseTargetsArgs "auto" args with e | tv
  · simp only [snapshotDatabasesHandler, hp] at hok
    exact Except.noConfusion hok
  · rcases hrb : resolveBuilder (args.headD "") with e | ⟨dk, style⟩
    · simp only [snapshotDatabasesHandler, hp, hrb] at hok
      exact Except.noConfusion hok
    · rcases hpre : predefinedDatabaseDumpTargets (resolveTargetKey tv dk) with _ | targets
      · rcases hfs : fs (resolveTargetKey tv dk) with e | targets
        · simp only [snapshotDatabasesHandler, hp, hrb, hpre, hfs] at hok
          exact Except.noConfusion hok
        · simp only [snapshotDatabasesHandler, hp, hrb, hpre, hfs, renderOutcome]
          simp
      · simp only [snapshotDatabasesHandler, hp, hrb, hpre, renderOutcome]
        simp

/-- Witness for the amended C4 at the invocation `["docker"]`. -/
theorem c4_amended_mkdir_attempted_failure_ignored_witness :
    ((snapshotDatabasesHandler (fun _ => Except.error "unused") (Except.ok ())
        ["docker"]).2 =
      Except.ok
        ["docker exec -it pgsql sh -c 'pg_dump --dbname=sg --username=sg --password=sg'",
         "docker exec -it codeintel-db sh -c 'pg_dump --dbname=sg --username=sg --password=sg'",
         "docker exec -it codeinsights-db sh -c 'pg_dump --dbname=postgres --username=postgres --password=password'"]) ∧
    SnapEffect.mkdirAll srcSnapshotDir ∈
      (snapshotDatabasesHandler (fun _ => Except.error "unused") (Except.ok ())
        ["docker"]).1 ∧
    snapshotDatabasesHandler (fun _ => Except.error "unused")
        (Except.error "boom") ["docker"] =
      snapshotDatabasesHandler (fun _ => Except.error "unused") (Except.ok ()) ["docker"] :=
  ⟨by decide,
    c4_amended_mkdir_attempted_failure_ignored (fun _ => Except.error "unused")
      (Except.ok ()) (Except.error "boom") ["docker"]
      ["docker exec -it pgsql sh -c 'pg_dump --dbname=sg --username=sg --password=sg'",
       "docker exec -it codeintel-db sh -c 'pg_dump --dbname=sg --username=sg --password=sg'",
       "docker exec -it codeinsights-db sh -c 'pg_dump --dbname=postgres --username=postgres --password=password'"]
      (by decide)⟩

/-- Helper: the character data of the modelled `pg_dump` invocation, in
right-associated append form. -/
theorem pgdumpCommandData (t : Target) :
    (pgdumpCommand t).data =
      "pg_dump --dbname=".data ++ (t.dbName.data ++ (" --username=".data ++
        (t.username.data ++ (" --password=".data ++ t.password.data)))) := by
  simp [pgdumpCommand, String.data_append]

/-- C8: every rendered command embeds the target's database name,
username and password as connection parameters (for every style), the
per-style execution wrapper (` --host=` flag, `docker exec`,
`kubectl exec`) is applied when `target` is non-empty, and for the
kubectl style applied to the `k8s` preset's primary target the rendered
command is exactly
`kubectl exec -it statefulset/pgsql -- bash -c '<pg_dump invocation>'`. -/
theorem c8_rendered_commands (t : Target) :
    (∀ style : DumpStyle,
      (∃ a b : List Char, (buildCommand style t).data = a ++ t.dbName.data ++ b) ∧
      (∃ a b : List Char, (buildCommand style t).data = a ++ t.username.data ++ b) ∧
      (∃ a b : List Char, (buildCommand style t).data = a ++ t.password.data ++ b)) ∧
    (t.target ≠ "" →
      (∃ a : List Char, (buildCommand DumpStyle.direct t).data =
        a ++ (" --host=" ++ t.target).data) ∧
      (∃ b : List Char, (buildCommand DumpStyle.dockerStyle t).data =
        ("docker exec -it " ++ t.target).data ++ b) ∧
      (∃ b : List Char, (buildCommand DumpStyle.kubectlStyle t).data =
        ("kubectl exec -it " ++ t.target).data ++ b)) ∧
    (predefinedDatabaseDumpTargets "k8s").map
        (fun ts => buildCommand DumpStyle.kubectlStyle ts.primary) =
      some "kubectl exec -it statefulset/pgsql -- bash -c 'pg_dump --dbname=sg --username=sg --password=sg'" := by
  refine ⟨?_, ?_, by decide⟩
  · intro style
    cases style with
    | direct =>
      by_cases ht : t.target = ""
      · refine ⟨⟨"pg_dump --dbname=".data,
          " --username=".data ++ t.username.data ++ " --password=".data ++ t.password.data, ?_⟩,
          ⟨"pg_dump --dbname=".data ++ t.dbName.data ++ " --username=".data,
          " --password=".data ++ t.password.data, ?_⟩,
          ⟨"pg_dump --dbname=".data ++ t.dbName.data ++ " --username=".data ++
            t.username.data ++ " --password=".data, [], ?_⟩⟩ <;>
        simp [buildCommand, pgdumpCommand, String.data_append, ht]
      · refine ⟨⟨"pg_dump --dbname=".data,
          " --username=".data ++ t.username.data ++ " --password=".data ++ t.password.data ++
            " --host=".data ++ t.target.data, ?_⟩,
          ⟨"pg_dump --dbname=".data ++ t.dbName.data ++ " --username=".data,
          " --password=".data ++ t.password.data ++ " --host=".data ++ t.target.data, ?_⟩,
          ⟨"pg_dump --dbname=".data ++ t.dbName.data ++ " --username=".data ++
            t.username.data ++ " --password=".data,
          " --host=".data ++ t.target.data, ?_⟩⟩ <;>
        simp [buildCommand, pgdumpCommand, String.data_append, ht]
    | dockerStyle =>
      refine ⟨⟨"docker exec -it ".data ++ t.target.data ++ " sh -c '".data ++
          "pg_dump --dbname=".data,
        " --username=".data ++ t.username.data ++ " --password=".data ++ t.password.data ++
          "'".data, ?_⟩,
        ⟨"docker exec -it ".data ++ t.target.data ++ " sh -c '".data ++
          "pg_dump --dbname=".data ++ t.dbName.data ++ " --username=".data,
        " --password=".data ++ t.password.data ++ "'".data, ?_⟩,
        ⟨"docker exec -it ".data ++ t.target.data ++ " sh -c '".data ++
          "pg_dump --dbname=".data ++ t.dbName.data ++ " --username=".data ++
          t.username.data ++ " --password=".data,
        "'".data, ?_⟩⟩ <;>
      simp [buildCommand, pgdumpCommand, String.data_append]
    | kubectlStyle =>
      refine ⟨⟨"kubectl exec -it ".data ++ t.target.data ++ " -- bash -c '".data ++
          "pg_dump --dbname=".data,
        " --username=".data ++ t.username.data ++ " --password=".data ++ t.password.data ++
          "'".data, ?_⟩,
        ⟨"kubectl exec -it ".data ++ t.target.data ++ " -- bash -c '".data ++
          "pg_dump --dbname=".data ++ t.dbName.data ++ " --username=".data,
        " --password=".data ++ t.password.data ++ "'".data, ?_⟩,
        ⟨"kubectl exec -it ".data ++ t.target.data ++ " -- bash -c '".data ++
          "pg_dump --dbname=".data ++ t.dbName.data ++ " --username=".data ++
          t.username.data ++ " --password=".data,
        "'".data, ?_⟩⟩ <;>
      simp [buildCommand, pgdumpCommand, String.data_append]
  · intro ht
    refine ⟨⟨(pgdumpCommand t).data, ?_⟩,
      ⟨(" sh -c '" ++ pgdumpCommand t ++ "'").data, ?_⟩,
      ⟨(" -- bash -c '" ++ pgdumpCommand t ++ "'").data, ?_⟩⟩ <;>
    simp [buildCommand, String.data_append, ht]

/-- Witness for C8 at a concrete non-empty target: the direct style
appends the ` --host=` wrapper. -/
theorem c8_rendered_commands_witness :
    ((Target.mk "pgsql" "sg" "sg" "sg").target ≠ "") ∧
    (∃ a : List Char,
      (buildCommand DumpStyle.direct (Target.mk "pgsql" "sg" "sg" "sg")).data =
        a ++ (" --host=" ++ (Target.mk "pgsql" "sg" "sg" "sg").target).data) :=
  ⟨by decide,
    ((c8_rendered_commands (Target.mk "pgsql" "sg" "sg" "sg")).2.1 (by decide)).1⟩
